import Mathlib

/-!
Verification of the Nyay-AI backend (legal-assistant web backend).

The development shallowly embeds the Python sources:
  * `backend/services/gemini_enhanced.py` — the remote text generator
    (`GeminiClient._generate`), the language detector (`detect_language`)
    and the topic gate (`classify_legal`);
  * `backend/services/ocr.py` — `extract_text_from_file`;
  * `backend/main.py` — the upload handler's post-save section.

External effects (the HTTP library, the OCR/PDF libraries, the langdetect
library, the file system) enter the model as explicit environments:
a function from attempt index to the attempt's outcome for the network,
abstract per-format extraction results for the libraries, and a list of
file paths for the file system.
-/

namespace NyayAI

/-! ### Python string primitives

Python strings are modelled as Lean `String`; `len` counts code points,
matching `List.length` on `String.data`.  `str.lower` is modelled with
`Char.toLower` (they agree on ASCII, which is all the fixed phrase lists
use), `str.strip` drops leading and trailing whitespace, `s[:n]` takes the
first `n` code points, and the Python `in` operator on strings is
contiguous-substring containment. -/

def pyLower (s : String) : String := ⟨s.data.map Char.toLower⟩

def pyStrip (s : String) : String :=
  ⟨((s.data.dropWhile Char.isWhitespace).reverse.dropWhile Char.isWhitespace).reverse⟩

def pyLen (s : String) : Nat := s.data.length

def pyTake (n : Nat) (s : String) : String := ⟨s.data.take n⟩

/-- `listPre n h`: the list `n` is an initial segment of `h`. -/
def listPre : List Char → List Char → Bool
  | [], _ => true
  | _ :: _, [] => false
  | a :: as, b :: bs => a == b && listPre as bs

/-- `listSub n h`: the list `n` occurs contiguously inside `h`. -/
def listSub (needle : List Char) : List Char → Bool
  | [] => needle.isEmpty
  | c :: t => listPre needle (c :: t) || listSub needle t

/-- Python `needle in hay` on strings. -/
def pyContains (hay needle : String) : Bool := listSub needle.data hay.data

/-- Declarative characterisation of substring containment: `needle`
occurs in `hay` iff `hay` splits as `pre ++ needle ++ post`. -/
def containsPhrase (hay needle : String) : Prop :=
  ∃ pre post : List Char, hay.data = pre ++ needle.data ++ post

/-! ### Remote text generator — `GeminiClient._generate`
(`backend/services/gemini_enhanced.py`, lines 17–94)

The JSON body of a successful HTTP response is modelled structurally:
`data.get("candidates", [])` is `Body.candidates`,
`candidates[0].get("content", {}).get("parts", [])` is `partsOf`, and
`parts[0].get("text", "")` is `Part.text.getD ""`.

One network attempt (`requests.post` + body handling) has one of four
outcomes.  A parsed HTTP response carries its status code and body; the
three exception constructors stand for `requests.exceptions.Timeout`,
`requests.exceptions.RequestException` (which also covers the `HTTPError`
raised by `resp.raise_for_status()` on a 4xx/5xx status, and the JSON
decode error raised by `resp.json()` on a malformed body in current
`requests`) and any other `Exception` (carrying its `str(e)` text). -/

structure Part where
  text : Option String
deriving DecidableEq

structure Content where
  parts : List Part
deriving DecidableEq

structure Candidate where
  content : Option Content
deriving DecidableEq

structure Body where
  candidates : List Candidate
deriving DecidableEq

/-- `candidates[i].get("content", {}).get("parts", [])`. -/
def partsOf (c : Candidate) : List Part :=
  match c.content with
  | none => []
  | some ct => ct.parts

inductive Outcome where
  | response (status : Nat) (body : Body)
  | timeoutExc
  | requestExc (msg : String)
  | otherExc (msg : String)
deriving DecidableEq

def GEMINI_API_BASE : String :=
  "https://generativelanguage.googleapis.com/v1beta/models"

/-- The credential-bearing request URL built at line 22 of
`gemini_enhanced.py`. -/
def requestUrl (model key : String) : String :=
  GEMINI_API_BASE ++ "/" ++ model ++ ":generateContent?key=" ++ key

/-! The sentinel strings returned by `_generate`. -/

def configSentinel : String :=
  "[Gemini API key not configured. Set GOOGLE_API_KEY in .env]"

def rateLimitSentinel : String :=
  "[Rate limit exceeded. Please wait a moment and try again.]"

def noResponseSentinel : String :=
  "[No response from Gemini. Please try again.]"

def noTextSentinel : String :=
  "[No text content from Gemini. Please try again.]"

def timeoutSentinel : String :=
  "[Request timeout. Please try again with a shorter document.]"

def networkSentinel : String :=
  "[Network error. Please wait a moment and try again.]"

def failedSentinel : String :=
  "[Failed after multiple attempts. Please wait a few minutes and try again.]"

def errorSentinel (msg : String) : String :=
  "[Error: " ++ msg ++ ". Please try again.]"

/-- The retry loop `for attempt in range(max_retries)` of `_generate`.

`outcomes i` is the outcome of attempt `i`; the returned pair is the
result string together with the list of `time.sleep` amounts performed,
in order.  `fuel` counts the attempts still available
(`max_retries - attempt`); it only drives the structural recursion, the
branch conditions are those of the source
(`attempt < max_retries - 1` decides whether to retry).  The `fuel = 0`
case is the fall-through past the `for` loop at line 94, reachable only
when `max_retries = 0`. -/
def generateLoop (outcomes : Nat → Outcome) (max_retries : Nat) :
    Nat → Nat → String × List Nat
  | _, 0 => (failedSentinel, [])
  | attempt, fuel + 1 =>
    match outcomes attempt with
    | .response status body =>
      if status = 429 then
        -- wait_time = (2 ** attempt) * 2  # Longer wait for rate limits
        if attempt < max_retries - 1 then
          let r := generateLoop outcomes max_retries (attempt + 1) fuel
          (r.1, (2 ^ attempt * 2) :: r.2)
        else
          (rateLimitSentinel, [])
      else if 400 ≤ status ∧ status < 600 then
        -- resp.raise_for_status() raises HTTPError ⊂ RequestException
        if attempt < max_retries - 1 then
          let r := generateLoop outcomes max_retries (attempt + 1) fuel
          (r.1, (2 ^ attempt * 2) :: r.2)
        else
          (networkSentinel, [])
      else
        match body.candidates with
        | [] =>
          if attempt < max_retries - 1 then
            let r := generateLoop outcomes max_retries (attempt + 1) fuel
            (r.1, (2 ^ attempt) :: r.2)
          else
            (noResponseSentinel, [])
        | cand :: _ =>
          match partsOf cand with
          | [] =>
            if attempt < max_retries - 1 then
              let r := generateLoop outcomes max_retries (attempt + 1) fuel
              (r.1, (2 ^ attempt) :: r.2)
            else
              (noTextSentinel, [])
          | p :: _ =>
            (pyStrip (p.text.getD ""), [])
    | .timeoutExc =>
      if attempt < max_retries - 1 then
        let r := generateLoop outcomes max_retries (attempt + 1) fuel
        (r.1, (2 ^ attempt) :: r.2)
      else
        (timeoutSentinel, [])
    | .requestExc _ =>
      if attempt < max_retries - 1 then
        let r := generateLoop outcomes max_retries (attempt + 1) fuel
        (r.1, (2 ^ attempt * 2) :: r.2)
      else
        (networkSentinel, [])
    | .otherExc msg =>
      if attempt < max_retries - 1 then
        let r := generateLoop outcomes max_retries (attempt + 1) fuel
        (r.1, (2 ^ attempt) :: r.2)
      else
        (errorSentinel msg, [])

/-- `GeminiClient._generate(prompt, temperature, max_retries)`.

`api_key` is `self.api_key` (`""` models a falsy key).  The prompt and
temperature only shape the request payload, which the network environment
`outcomes` abstracts, so they do not appear as arguments. -/
def _generate (api_key : String) (outcomes : Nat → Outcome)
    (max_retries : Nat) : String × List Nat :=
  if api_key = "" then (configSentinel, [])
  else generateLoop outcomes max_retries 0 max_retries

/-! ### Language detector — `GeminiClient.detect_language`
(`gemini_enhanced.py`, lines 100–124)

The external `langdetect.detect` call is the environment parameter
`det : String → Except String String`: `.ok code` is a returned language
code, `.error e` is a raised `LangDetectException` (or any other error),
caught by the `except` clause. -/

def lang_map : List (String × String) :=
  [("en", "English"), ("hi", "Hindi"), ("mr", "Marathi"), ("ta", "Tamil"),
   ("te", "Telugu"), ("bn", "Bengali"), ("gu", "Gujarati"), ("kn", "Kannada"),
   ("ml", "Malayalam"), ("pa", "Punjabi")]

def detect_language (det : String → Except String String) (text : String) :
    String :=
  if text = "" ∨ pyLen (pyStrip text) < 10 then "English"
  else
    match det (pyTake 500 text) with
    | .error _ => "English"
    | .ok lang_code => (lang_map.lookup lang_code).getD "English"

/-! ### Topic gate — `GeminiClient.classify_legal`
(`gemini_enhanced.py`, lines 146–171) -/

def greetings : List String :=
  ["hi", "hello", "hey", "namaste", "good morning", "good evening",
   "good afternoon", "how are you", "thanks", "thank you", "bye"]

def non_legal_topics : List String :=
  ["resume", "cv", "curriculum vitae", "job application",
   "ceo of", "founder of", "who is the ceo",
   "recipe", "cooking", "food preparation",
   "movie", "film", "entertainment",
   "sports", "cricket", "football", "match",
   "weather", "temperature", "climate today"]

def classify_legal (text : String) : String :=
  let text_lower := pyStrip (pyLower text)
  if greetings.any (fun greeting => pyContains text_lower greeting) then
    "LEGAL"
  else if non_legal_topics.any (fun topic => pyContains text_lower topic) then
    "NOT_LEGAL"
  else
    "LEGAL"

/-! ### Extractor — `extract_text_from_file`
(`backend/services/ocr.py`, lines 53–89)

The file system and the extraction libraries are the environment
`FileModel`: `exists_` is `os.path.exists(path)`, `size` is
`os.path.getsize(path)`, `ext` is `os.path.splitext(path)[1].lower()`,
and `pdfText` / `imageText` / `docxText` are the strings returned by the
total helpers `_extract_pdf_text` / `_extract_image_text` /
`_extract_docx_text` (each swallows library exceptions and returns a
string).  `readResult` is the plain-text fallback
`open(path, "r", encoding="utf-8", errors="ignore").read()`:
`.ok text` is the read text, `.error e` an OS-level exception with text
`str(e)`. -/

structure FileModel where
  path : String
  exists_ : Bool
  size : Nat
  ext : String
  pdfText : String
  imageText : String
  docxText : String
  readResult : Except String String

/-- Python exception classes raised by `extract_text_from_file`. -/
inductive PyError where
  | fileNotFound (msg : String)
  | valueError (msg : String)
deriving DecidableEq

def pdfFailMsg : String :=
  "Could not extract text from PDF. The file may be corrupted or contain only images without OCR."

def imageFailMsg : String :=
  "Could not extract text from image. Please ensure the image contains clear, readable text."

def docxFailMsg : String :=
  "Could not extract text from DOCX file. The file may be empty or corrupted."

/-- The `ValueError("File appears to be empty or contains insufficient
text.")` raised inside the plain-text `try` block is caught by its own
`except Exception` clause and re-raised wrapped in
`ValueError(f"Could not read file: {str(e)}")`, so this is the message
the caller sees. -/
def plainFailMsg : String :=
  "Could not read file: File appears to be empty or contains insufficient text."

def extract_text_from_file (f : FileModel) : Except PyError String :=
  if f.exists_ = false then
    .error (.fileNotFound ("File not found: " ++ f.path))
  else if f.size = 0 then
    .error (.valueError "File is empty")
  else if f.ext = ".pdf" then
    let text := f.pdfText
    if text = "" ∨ pyLen (pyStrip text) < 10 then .error (.valueError pdfFailMsg)
    else .ok text
  else if f.ext = ".jpg" ∨ f.ext = ".jpeg" ∨ f.ext = ".png" then
    let text := f.imageText
    if text = "" ∨ pyLen (pyStrip text) < 10 then .error (.valueError imageFailMsg)
    else .ok text
  else if f.ext = ".docx" then
    let text := f.docxText
    if text = "" ∨ pyLen (pyStrip text) < 10 then .error (.valueError docxFailMsg)
    else .ok text
  else
    match f.readResult with
    | .error e => .error (.valueError ("Could not read file: " ++ e))
    | .ok text =>
      if text = "" ∨ pyLen (pyStrip text) < 10 then
        .error (.valueError plainFailMsg)
      else .ok text

/-! ### Upload handler, post-save section — `upload`
(`backend/main.py`, lines 182–206)

The section after content validation: the file content is written to
`saved_path`, then a `try / except ValueError / except Exception /
finally` block runs extraction and builds the response; the `finally`
clause removes the temporary file best-effort
(`try: os.remove(saved_path) except: pass`).

The file system is a list of stored paths (paths are unique per request —
the name embeds a fresh UUID — so removal drops every occurrence).  The
joint behaviour of `extract_text_from_file` and the real file system is
abstracted as an `ExtractOutcome`: the extracted text, a raised
`ValueError`, or any other raised exception. -/

inductive ExtractOutcome where
  | ok (text : String)
  | valueError (msg : String)
  | otherError (msg : String)
deriving DecidableEq

/-- The handler's observable result: the 200 JSON payload fields
(`text`, `detected_language`, `text_length`), or an `HTTPException`
with its status code and detail. -/
inductive UploadResponse where
  | ok (text : String) (detected_language : String) (text_length : Nat)
  | httpError (status : Nat) (detail : String)
deriving DecidableEq

/-- `os.remove(saved_path)` inside `try: ... except Exception: pass`. -/
def removeBestEffort (p : String) (fs : List String) : List String :=
  fs.filter (fun q => q ≠ p)

/-- The `try` body and the two `except` clauses. -/
def uploadTryBody (o : ExtractOutcome) (det : String → String) :
    UploadResponse :=
  match o with
  | .ok text => .ok text (det text) (pyLen text)
  | .valueError m => .httpError 400 m
  | .otherError m => .httpError 500 ("Error processing file: " ++ m)

/-- The post-save section of `upload`: write the file, run the `try`
block, and let `finally` remove the temporary file on the way out.
Returns the response together with the final file-system state. -/
def upload_after_save (saved_path : String) (o : ExtractOutcome)
    (det : String → String) (fs : List String) :
    UploadResponse × List String :=
  let fs1 := saved_path :: fs
  let resp := uploadTryBody o det
  (resp, removeBestEffort saved_path fs1)

/-! ### Predicates used to state the claims -/

/-- `s` is one of the failure sentinels `_generate` can return. -/
def isSentinel (s : String) : Prop :=
  s ∈ [configSentinel, rateLimitSentinel, noResponseSentinel, noTextSentinel,
       timeoutSentinel, networkSentinel, failedSentinel] ∨
  ∃ m, s = errorSentinel m

/-- `s` is the trimmed text of the first candidate's first content part of
the outcome `o`. -/
def successText (o : Outcome) (s : String) : Prop :=
  ∃ st body cand cs p ps, o = .response st body ∧
    body.candidates = cand :: cs ∧ partsOf cand = p :: ps ∧
    s = pyStrip (p.text.getD "")

/-- The failure classes of one `_generate` attempt, as the spec's retry
ladder names them. -/
inductive FailClass where
  | rateLimited
  | noCandidates
  | noParts
  | timedOut
  | netError (msg : String)
  | genericError (msg : String)

/-- The outcome `o` exhibits failure class `c`: a 429 response, a
success-status response with an empty candidate list, one with an empty
parts list, a timeout, a request exception, or any other exception. -/
def inClass (c : FailClass) (o : Outcome) : Prop :=
  match c, o with
  | .rateLimited, .response st _ => st = 429
  | .noCandidates, .response st body =>
    st ≠ 429 ∧ ¬(400 ≤ st ∧ st < 600) ∧ body.candidates = []
  | .noParts, .response st body =>
    st ≠ 429 ∧ ¬(400 ≤ st ∧ st < 600) ∧
    ∃ cand cs, body.candidates = cand :: cs ∧ partsOf cand = []
  | .timedOut, .timeoutExc => True
  | .netError m, .requestExc m2 => m = m2
  | .genericError m, .otherExc m2 => m = m2
  | _, _ => False

/-- The `time.sleep` amount a class-`c` failure at attempt `attempt`
causes before the next attempt. -/
def classBackoff (c : FailClass) (attempt : Nat) : Nat :=
  match c with
  | .rateLimited => 2 ^ attempt * 2
  | .noCandidates => 2 ^ attempt
  | .noParts => 2 ^ attempt
  | .timedOut => 2 ^ attempt
  | .netError _ => 2 ^ attempt * 2
  | .genericError _ => 2 ^ attempt

/-- The sentinel returned when the last attempt fails with class `c`. -/
def classSentinel : FailClass → String
  | .rateLimited => rateLimitSentinel
  | .noCandidates => noResponseSentinel
  | .noParts => noTextSentinel
  | .timedOut => timeoutSentinel
  | .netError _ => networkSentinel
  | .genericError m => errorSentinel m

/-! ### Concrete fixtures used by witnesses and counterexamples -/

/-- A detector that reports Hindi on every input. -/
def detHi : String → Except String String := fun _ => .ok "hi"

/-- A detector that always raises (`LangDetectException`). -/
def detRaise : String → Except String String := fun _ => .error "no features"

/-- A detector that reports a code outside `lang_map`. -/
def detUnmapped : String → Except String String := fun _ => .ok "fr"

/-- 492 spaces, 8 letters, 10 trailing spaces: strips to 8 characters. -/
def padTextA : String :=
  ⟨List.replicate 492 ' ' ++ "abcdefgh".data ++ List.replicate 10 ' '⟩

/-- 492 spaces then 10 letters: agrees with `padTextA` on the first 500
characters but strips to 10 characters. -/
def padTextB : String :=
  ⟨List.replicate 492 ' ' ++ "abcdefghij".data⟩

/-- `padTextB` with three more letters: same first 500 characters. -/
def padTextC : String :=
  ⟨List.replicate 492 ' ' ++ "abcdefghijklm".data⟩

/-- Every attempt is rate-limited with an empty body. -/
def outcomes429 : Nat → Outcome := fun _ => .response 429 ⟨[]⟩

/-- The response body `{"candidates":[{"content":{"parts":[{"text":"  Valid response text.  "}]}}]}`. -/
def validBody : Body :=
  ⟨[⟨some ⟨[⟨some "  Valid response text.  "⟩]⟩⟩]⟩

/-- First attempt: HTTP 200 with an empty candidate list; every later
attempt: HTTP 200 with `validBody`. -/
def scenarioOutcomes : Nat → Outcome :=
  fun i => if i = 0 then .response 200 ⟨[]⟩ else .response 200 validBody

/-- Every attempt: HTTP 200 whose first part has no `"text"` field. -/
def noTextOutcomes : Nat → Outcome :=
  fun _ => .response 200 ⟨[⟨some ⟨[⟨none⟩]⟩⟩]⟩

/-- A path that does not exist. -/
def missingFile : FileModel :=
  { path := "/tmp/up/missing.pdf", exists_ := false, size := 17, ext := ".pdf",
    pdfText := "plenty of extracted text", imageText := "", docxText := "",
    readResult := .ok "" }

/-- An existing zero-byte file. -/
def emptyFile : FileModel :=
  { path := "/tmp/up/empty.docx", exists_ := true, size := 0, ext := ".docx",
    pdfText := "", imageText := "", docxText := "", readResult := .ok "" }

/-- A PDF whose extraction strips to fewer than 10 characters. -/
def pdfShortFile : FileModel :=
  { path := "/tmp/up/a.pdf", exists_ := true, size := 900, ext := ".pdf",
    pdfText := "  tiny  ", imageText := "", docxText := "", readResult := .ok "" }

/-- A PDF whose extraction strips to at least 10 characters. -/
def pdfGoodFile : FileModel :=
  { path := "/tmp/up/b.pdf", exists_ := true, size := 900, ext := ".pdf",
    pdfText := "WHEREAS the parties agree", imageText := "", docxText := "",
    readResult := .ok "" }

/-- An image whose OCR output strips to fewer than 10 characters. -/
def imageShortFile : FileModel :=
  { path := "/tmp/up/c.png", exists_ := true, size := 900, ext := ".png",
    pdfText := "", imageText := "x y", docxText := "", readResult := .ok "" }

/-- An image whose OCR output strips to at least 10 characters. -/
def imageGoodFile : FileModel :=
  { path := "/tmp/up/d.jpg", exists_ := true, size := 900, ext := ".jpg",
    pdfText := "", imageText := "NOTICE TO APPEAR", docxText := "",
    readResult := .ok "" }

/-- A DOCX whose paragraph text strips to fewer than 10 characters. -/
def docxShortFile : FileModel :=
  { path := "/tmp/up/e.docx", exists_ := true, size := 900, ext := ".docx",
    pdfText := "", imageText := "", docxText := "hi", readResult := .ok "" }

/-- A DOCX whose paragraph text strips to at least 10 characters. -/
def docxGoodFile : FileModel :=
  { path := "/tmp/up/f.docx", exists_ := true, size := 900, ext := ".docx",
    pdfText := "", imageText := "", docxText := "Affidavit of service",
    readResult := .ok "" }

/-- A plain-text fallback file whose content strips to fewer than 10
characters. -/
def plainShortFile : FileModel :=
  { path := "/tmp/up/g.txt", exists_ := true, size := 900, ext := ".txt",
    pdfText := "", imageText := "", docxText := "", readResult := .ok " ab " }

/-- A plain-text fallback file whose content strips to at least 10
characters. -/
def plainGoodFile : FileModel :=
  { path := "/tmp/up/h.txt", exists_ := true, size := 900, ext := ".txt",
    pdfText := "", imageText := "", docxText := "",
    readResult := .ok "section 138 of the NI Act" }

/-! ### Helper lemmas -/

theorem listPre_iff (n : List Char) :
    ∀ h, listPre n h = true ↔ ∃ post, h = n ++ post := by
  induction n with
  | nil => intro h; simp [listPre]
  | cons a as ih =>
    intro h
    cases h with
    | nil => simp [listPre]
    | cons b bs =>
      simp only [listPre, Bool.and_eq_true, beq_iff_eq, ih bs]
      constructor
      · rintro ⟨rfl, post, rfl⟩; exact ⟨post, rfl⟩
      · rintro ⟨post, heq⟩
        injection heq with h1 h2
        exact ⟨h1.symm, post, h2⟩

theorem listSub_iff (n : List Char) :
    ∀ h, listSub n h = true ↔ ∃ pre post, h = pre ++ n ++ post := by
  intro h
  induction h with
  | nil =>
    simp only [listSub, List.isEmpty_iff]
    constructor
    · rintro rfl; exact ⟨[], [], rfl⟩
    · rintro ⟨pre, post, heq⟩
      rcases List.append_eq_nil.mp (List.append_eq_nil.mp heq.symm).1 with ⟨-, h2⟩
      exact h2
  | cons c t ih =>
    simp only [listSub, Bool.or_eq_true, listPre_iff, ih]
    constructor
    · rintro (⟨post, hp⟩ | ⟨pre, post, rfl⟩)
      · exact ⟨[], post, by simpa using hp⟩
      · exact ⟨c :: pre, post, rfl⟩
    · rintro ⟨pre, post, heq⟩
      cases pre with
      | nil => exact Or.inl ⟨post, by simpa using heq⟩
      | cons p ps =>
        injection heq with h1 h2
        exact Or.inr ⟨ps, post, h2⟩

theorem pyContains_iff (hay needle : String) :
    pyContains hay needle = true ↔ containsPhrase hay needle :=
  listSub_iff needle.data hay.data

theorem length_le_of_listSub {n h : List Char} (hs : listSub n h = true) :
    n.length ≤ h.length := by
  rcases (listSub_iff n h).mp hs with ⟨pre, post, rfl⟩
  simp
  omega

theorem any_contains_iff (l : List String) (hay : String) :
    l.any (fun needle => pyContains hay needle) = true ↔
    ∃ needle ∈ l, containsPhrase hay needle := by
  simp only [List.any_eq_true, pyContains_iff]

theorem data_append (a b : String) : (a ++ b).data = a.data ++ b.data := rfl

theorem strip_len_ne_empty {t : String} (h : 10 ≤ pyLen (pyStrip t)) :
    ¬ t = "" := by
  intro heq
  rw [heq] at h
  exact absurd h (by decide)

theorem lookup_mem_map_snd {k v : String} :
    ∀ {m : List (String × String)}, m.lookup k = some v →
      v ∈ m.map Prod.snd := by
  intro m
  induction m with
  | nil => intro h; simp [List.lookup] at h
  | cons a tl ih =>
    obtain ⟨ka, va⟩ := a
    intro h
    rw [List.lookup] at h
    cases hk : (k == ka) with
    | true =>
      rw [hk] at h
      injection h with h
      simp [h]
    | false =>
      rw [hk] at h
      simpa using Or.inr (ih h)

/-! ### Claim theorems -/

/-- C5: `classify_legal` is a pure function of its input text that
returns `LEGAL` whenever the lowercased (and stripped) text contains any
fixed greeting phrase — the greeting check takes precedence even when an
off-domain phrase also matches —, returns `NOT_LEGAL` when no greeting
matches but a fixed off-domain topic phrase matches, and returns `LEGAL`
for every other input (default-permissive). -/
theorem classify_legal_cases (text : String) :
    ((∃ g ∈ greetings, containsPhrase (pyStrip (pyLower text)) g) →
      classify_legal text = "LEGAL") ∧
    ((¬ ∃ g ∈ greetings, containsPhrase (pyStrip (pyLower text)) g) →
      (∃ t ∈ non_legal_topics, containsPhrase (pyStrip (pyLower text)) t) →
      classify_legal text = "NOT_LEGAL") ∧
    ((¬ ∃ g ∈ greetings, containsPhrase (pyStrip (pyLower text)) g) →
      (¬ ∃ t ∈ non_legal_topics, containsPhrase (pyStrip (pyLower text)) t) →
      classify_legal text = "LEGAL") := by
  have hg := any_contains_iff greetings (pyStrip (pyLower text))
  have ht := any_contains_iff non_legal_topics (pyStrip (pyLower text))
  refine ⟨fun h => ?_, fun h1 h2 => ?_, fun h1 h2 => ?_⟩
  · simp [classify_legal, hg.mpr h]
  · have hgf : greetings.any
        (fun needle => pyContains (pyStrip (pyLower text)) needle) = false :=
      Bool.not_eq_true _ |>.mp (fun hc => h1 (hg.mp hc))
    simp [classify_legal, hgf, ht.mpr h2]
  · have hgf : greetings.any
        (fun needle => pyContains (pyStrip (pyLower text)) needle) = false :=
      Bool.not_eq_true _ |>.mp (fun hc => h1 (hg.mp hc))
    have htf : non_legal_topics.any
        (fun needle => pyContains (pyStrip (pyLower text)) needle) = false :=
      Bool.not_eq_true _ |>.mp (fun hc => h2 (ht.mp hc))
    simp [classify_legal, hgf, htf]

/-- Witness for C5: a greeting together with an off-topic phrase is
`LEGAL`, an off-topic question without a greeting is `NOT_LEGAL`, and an
unmatched legal question is `LEGAL`. -/
theorem classify_legal_cases_witness :
    classify_legal "hi, what is the weather, I need a lawyer" = "LEGAL" ∧
    classify_legal "cricket score today" = "NOT_LEGAL" ∧
    classify_legal "tenant rights" = "LEGAL" := by
  refine ⟨(classify_legal_cases _).1 ?_,
          (classify_legal_cases _).2.1 ?_ ?_,
          (classify_legal_cases _).2.2 ?_ ?_⟩
  · exact ⟨"hi", by decide, (pyContains_iff _ _).mp (by decide)⟩
  · exact fun h => absurd ((any_contains_iff greetings _).mpr h) (by decide)
  · exact ⟨"cricket", by decide, (pyContains_iff _ _).mp (by decide)⟩
  · exact fun h => absurd ((any_contains_iff greetings _).mpr h) (by decide)
  · exact fun h => absurd ((any_contains_iff non_legal_topics _).mpr h) (by decide)

/-- C9: the greeting check of `classify_legal` is bare substring
containment, so any input whose lowercased, stripped form contains a
greeting phrase — even inside a longer word — is classified `LEGAL`,
no matter which off-domain phrases the text also contains. -/
theorem classify_legal_greeting_substring (text g : String)
    (hg : g ∈ greetings)
    (hsub : pyContains (pyStrip (pyLower text)) g = true) :
    classify_legal text = "LEGAL" := by
  have : greetings.any
      (fun needle => pyContains (pyStrip (pyLower text)) needle) = true :=
    List.any_eq_true.mpr ⟨g, hg, hsub⟩
  simp [classify_legal, this]

/-- Witness for C9: "this" contains the greeting "hi", so a sentence made
of off-domain phrases is still `LEGAL`. -/
theorem classify_legal_greeting_substring_witness :
    ("hi" ∈ greetings ∧
      pyContains (pyStrip (pyLower "this cricket movie recipe weather"))
        "hi" = true) ∧
    classify_legal "this cricket movie recipe weather" = "LEGAL" :=
  ⟨⟨by decide, by decide⟩,
   classify_legal_greeting_substring _ "hi" (by decide) (by decide)⟩

/-- C7: `extract_text_from_file` fails with the not-found error when the
path does not exist, and with the empty-file error when the file exists
with zero size; both verdicts are independent of the declared extension
and of every extraction result, i.e. they precede format dispatch. -/
theorem extract_precondition_checks (f : FileModel) :
    (f.exists_ = false →
      extract_text_from_file f =
        .error (.fileNotFound ("File not found: " ++ f.path))) ∧
    (f.exists_ = true → f.size = 0 →
      extract_text_from_file f = .error (.valueError "File is empty")) := by
  constructor
  · intro h
    simp [extract_text_from_file, h]
  · intro h1 h2
    simp [extract_text_from_file, h1, h2]

/-- Witness for C7 at a missing path and at an empty file. -/
theorem extract_precondition_checks_witness :
    extract_text_from_file missingFile =
      .error (.fileNotFound ("File not found: " ++ missingFile.path)) ∧
    extract_text_from_file emptyFile = .error (.valueError "File is empty") :=
  ⟨(extract_precondition_checks missingFile).1 rfl,
   (extract_precondition_checks emptyFile).2 rfl rfl⟩

/-- C3: for every supported format (pdf, jpg/jpeg/png, docx, plain-text
fallback) on an existing non-empty file, when the format's extracted text
strips to fewer than 10 characters `extract_text_from_file` fails with a
`ValueError` carrying that format's message, and when it strips to at
least 10 characters the extracted text is returned unchanged. -/
theorem extract_threshold_gate (f : FileModel)
    (hex : f.exists_ = true) (hsz : f.size ≠ 0) :
    (f.ext = ".pdf" →
      (pyLen (pyStrip f.pdfText) < 10 →
        extract_text_from_file f = .error (.valueError pdfFailMsg)) ∧
      (10 ≤ pyLen (pyStrip f.pdfText) →
        extract_text_from_file f = .ok f.pdfText)) ∧
    ((f.ext = ".jpg" ∨ f.ext = ".jpeg" ∨ f.ext = ".png") →
      (pyLen (pyStrip f.imageText) < 10 →
        extract_text_from_file f = .error (.valueError imageFailMsg)) ∧
      (10 ≤ pyLen (pyStrip f.imageText) →
        extract_text_from_file f = .ok f.imageText)) ∧
    (f.ext = ".docx" →
      (pyLen (pyStrip f.docxText) < 10 →
        extract_text_from_file f = .error (.valueError docxFailMsg)) ∧
      (10 ≤ pyLen (pyStrip f.docxText) →
        extract_text_from_file f = .ok f.docxText)) ∧
    (f.ext ≠ ".pdf" → f.ext ≠ ".jpg" → f.ext ≠ ".jpeg" → f.ext ≠ ".png" →
      f.ext ≠ ".docx" → ∀ t, f.readResult = .ok t →
      (pyLen (pyStrip t) < 10 →
        extract_text_from_file f = .error (.valueError plainFailMsg)) ∧
      (10 ≤ pyLen (pyStrip t) → extract_text_from_file f = .ok t)) := by
  refine ⟨fun hext => ⟨fun hlt => ?_, fun hge => ?_⟩,
          fun hext => ⟨fun hlt => ?_, fun hge => ?_⟩,
          fun hext => ⟨fun hlt => ?_, fun hge => ?_⟩,
          fun h1 h2 h3 h4 h5 t hread => ⟨fun hlt => ?_, fun hge => ?_⟩⟩
  · simp [extract_text_from_file, hex, hsz, hext, hlt]
  · simp [extract_text_from_file, hex, hsz, hext, strip_len_ne_empty hge,
      Nat.not_lt.mpr hge]
  · rcases hext with hext | hext | hext <;>
      simp [extract_text_from_file, hex, hsz, hext, hlt]
  · rcases hext with hext | hext | hext <;>
      simp [extract_text_from_file, hex, hsz, hext, strip_len_ne_empty hge,
        Nat.not_lt.mpr hge]
  · simp [extract_text_from_file, hex, hsz, hext, hlt]
  · simp [extract_text_from_file, hex, hsz, hext, strip_len_ne_empty hge,
      Nat.not_lt.mpr hge]
  · simp [extract_text_from_file, hex, hsz, h1, h2, h3, h4, h5, hread, hlt]
  · simp [extract_text_from_file, hex, hsz, h1, h2, h3, h4, h5, hread,
      strip_len_ne_empty hge, Nat.not_lt.mpr hge]

/-- Witness for C3: one short and one sufficient file per format. -/
theorem extract_threshold_gate_witness :
    extract_text_from_file pdfShortFile = .error (.valueError pdfFailMsg) ∧
    extract_text_from_file pdfGoodFile = .ok "WHEREAS the parties agree" ∧
    extract_text_from_file imageShortFile =
      .error (.valueError imageFailMsg) ∧
    extract_text_from_file imageGoodFile = .ok "NOTICE TO APPEAR" ∧
    extract_text_from_file docxShortFile = .error (.valueError docxFailMsg) ∧
    extract_text_from_file docxGoodFile = .ok "Affidavit of service" ∧
    extract_text_from_file plainShortFile =
      .error (.valueError plainFailMsg) ∧
    extract_text_from_file plainGoodFile =
      .ok "section 138 of the NI Act" :=
  ⟨((extract_threshold_gate pdfShortFile rfl (by decide)).1 rfl).1 (by decide),
   ((extract_threshold_gate pdfGoodFile rfl (by decide)).1 rfl).2 (by decide),
   ((extract_threshold_gate imageShortFile rfl (by decide)).2.1
      (Or.inr (Or.inr rfl))).1 (by decide),
   ((extract_threshold_gate imageGoodFile rfl (by decide)).2.1
      (Or.inl rfl)).2 (by decide),
   ((extract_threshold_gate docxShortFile rfl (by decide)).2.2.1 rfl).1
      (by decide),
   ((extract_threshold_gate docxGoodFile rfl (by decide)).2.2.1 rfl).2
      (by decide),
   ((extract_threshold_gate plainShortFile rfl (by decide)).2.2.2
      (by decide) (by decide) (by decide) (by decide) (by decide) _ rfl).1
      (by decide),
   ((extract_threshold_gate plainGoodFile rfl (by decide)).2.2.2
      (by decide) (by decide) (by decide) (by decide) (by decide) _ rfl).2
      (by decide)⟩

/-- C4: once the upload content is written to the temporary directory,
the saved temporary file is absent from the file system after the handler
finishes, on every exit path — successful extraction, extraction failure
mapped to a 400 error, and any unexpected exception mapped to a 500
error. -/
theorem upload_temp_file_removed (saved_path : String) (o : ExtractOutcome)
    (det : String → String) (fs : List String) :
    saved_path ∉ (upload_after_save saved_path o det fs).2 ∧
    (upload_after_save saved_path o det fs).1 =
      (match o with
       | .ok t => .ok t (det t) (pyLen t)
       | .valueError m => .httpError 400 m
       | .otherError m =>
         .httpError 500 ("Error processing file: " ++ m)) := by
  constructor
  · intro hmem
    rw [upload_after_save] at hmem
    simp only [removeBestEffort, List.mem_filter] at hmem
    simp at hmem
  · cases o <;> rfl

/-- Witness for C4: the temporary file is gone after each of the three
exit paths — success, `ValueError`, unexpected exception. -/
theorem upload_temp_file_removed_witness :
    ¬ "/up/1.pdf" ∈ (upload_after_save "/up/1.pdf" (.ok "extracted text")
      (fun _ => "English") ["/up/0.txt"]).2 ∧
    ¬ "/up/1.pdf" ∈ (upload_after_save "/up/1.pdf" (.valueError "File is empty")
      (fun _ => "English") ["/up/0.txt"]).2 ∧
    ¬ "/up/1.pdf" ∈ (upload_after_save "/up/1.pdf" (.otherError "boom")
      (fun _ => "English") ["/up/0.txt"]).2 :=
  ⟨(upload_temp_file_removed "/up/1.pdf" (.ok "extracted text")
      (fun _ => "English") ["/up/0.txt"]).1,
   (upload_temp_file_removed "/up/1.pdf" (.valueError "File is empty")
      (fun _ => "English") ["/up/0.txt"]).1,
   (upload_temp_file_removed "/up/1.pdf" (.otherError "boom")
      (fun _ => "English") ["/up/0.txt"]).1⟩

set_option maxRecDepth 8000 in
/-- C8 counterexample: the claim says two texts agreeing on their first
500 characters always get the same label, but the under-10-characters
guard looks at the whole stripped text.  `padTextA` and `padTextB` agree
on their first 500 characters, yet with a detector reporting Hindi the
first is labelled English (it strips to 8 characters) and the second
Hindi. -/
theorem detect_language_first500_cex :
    pyTake 500 padTextA = pyTake 500 padTextB ∧
    detect_language detHi padTextA ≠ detect_language detHi padTextB := by
  constructor
  · decide
  · decide

/-- C8 (amended): `detect_language` never fails and always returns a
label from the fixed label set; it returns "English" whenever the input
is empty or strips to fewer than 10 characters, whenever the detector
raises, and whenever the detected code is outside the code-to-label map;
the detector only ever sees the first 500 characters, so two non-empty
texts that agree on their first 500 characters and both strip to at
least 10 characters get the same label. -/
theorem detect_language_spec (det : String → Except String String)
    (text t1 t2 : String) :
    (text = "" ∨ pyLen (pyStrip text) < 10 →
      detect_language det text = "English") ∧
    (∀ e, det (pyTake 500 text) = .error e →
      detect_language det text = "English") ∧
    (∀ code, det (pyTake 500 text) = .ok code → lang_map.lookup code = none →
      detect_language det text = "English") ∧
    (detect_language det text = "English" ∨
      detect_language det text ∈ lang_map.map Prod.snd) ∧
    (¬ t1 = "" → ¬ t2 = "" → 10 ≤ pyLen (pyStrip t1) →
      10 ≤ pyLen (pyStrip t2) → pyTake 500 t1 = pyTake 500 t2 →
      detect_language det t1 = detect_language det t2) := by
  refine ⟨fun h => ?_, fun e he => ?_, fun code hc hn => ?_, ?_,
          fun h1 h2 h3 h4 h5 => ?_⟩
  · simp [detect_language, h]
  · by_cases h : text = "" ∨ pyLen (pyStrip text) < 10
    · simp [detect_language, h]
    · simp [detect_language, h, he]
  · by_cases h : text = "" ∨ pyLen (pyStrip text) < 10
    · simp [detect_language, h]
    · simp [detect_language, h, hc, hn]
  · by_cases h : text = "" ∨ pyLen (pyStrip text) < 10
    · left; simp [detect_language, h]
    · rw [detect_language, if_neg h]
      cases hd : det (pyTake 500 text) with
      | error e => left; rfl
      | ok code =>
        cases hl : lang_map.lookup code with
        | none => left; simp [hl]
        | some v => right; simpa [hl] using lookup_mem_map_snd hl
  · have g1 : ¬ (t1 = "" ∨ pyLen (pyStrip t1) < 10) := by
      rintro (h | h)
      · exact h1 h
      · omega
    have g2 : ¬ (t2 = "" ∨ pyLen (pyStrip t2) < 10) := by
      rintro (h | h)
      · exact h2 h
      · omega
    rw [detect_language, detect_language, if_neg g1, if_neg g2, h5]

set_option maxRecDepth 8000 in
/-- Witness for C8 (amended): each default-to-English branch at a
concrete input, and the first-500-characters agreement conclusion for
`padTextB`/`padTextC`. -/
theorem detect_language_spec_witness :
    detect_language detHi "short" = "English" ∧
    detect_language detRaise "a contract of employment" = "English" ∧
    detect_language detUnmapped "a contract of employment" = "English" ∧
    detect_language detHi padTextB = detect_language detHi padTextC :=
  ⟨(detect_language_spec detHi "short" "" "").1 (by decide),
   (detect_language_spec detRaise "a contract of employment" "" "").2.1
      "no features" rfl,
   (detect_language_spec detUnmapped "a contract of employment" "" "").2.2.1
      "fr" rfl (by decide),
   (detect_language_spec detHi "" padTextB padTextC).2.2.2.2
      (by decide) (by decide) (by decide) (by decide) (by decide)⟩

/-- Every value the retry loop can produce is either the trimmed payload
of some attempt's response or a failure sentinel. -/
theorem generateLoop_result_shape (outcomes : Nat → Outcome)
    (max_retries : Nat) :
    ∀ fuel attempt,
      (∃ i, successText (outcomes i)
        (generateLoop outcomes max_retries attempt fuel).1) ∨
      isSentinel (generateLoop outcomes max_retries attempt fuel).1 := by
  intro fuel
  induction fuel with
  | zero =>
    intro attempt
    right
    left
    simp [generateLoop]
  | succ n ih =>
    intro attempt
    cases ho : outcomes attempt with
    | response st body =>
      by_cases h429 : st = 429
      · by_cases hlast : attempt < max_retries - 1
        · simpa [generateLoop, ho, h429, hlast] using ih (attempt + 1)
        · right; left; simp [generateLoop, ho, h429, hlast]
      · by_cases herr : 400 ≤ st ∧ st < 600
        · by_cases hlast : attempt < max_retries - 1
          · simpa [generateLoop, ho, h429, herr, hlast] using ih (attempt + 1)
          · right; left; simp [generateLoop, ho, h429, herr, hlast]
        · cases hc : body.candidates with
          | nil =>
            by_cases hlast : attempt < max_retries - 1
            · simpa [generateLoop, ho, h429, herr, hc, hlast]
                using ih (attempt + 1)
            · right; left; simp [generateLoop, ho, h429, herr, hc, hlast]
          | cons cand cs =>
            cases hp : partsOf cand with
            | nil =>
              by_cases hlast : attempt < max_retries - 1
              · simpa [generateLoop, ho, h429, herr, hc, hp, hlast]
                  using ih (attempt + 1)
              · right; left
                simp [generateLoop, ho, h429, herr, hc, hp, hlast]
            | cons p ps =>
              left
              refine ⟨attempt, st, body, cand, cs, p, ps, ho, hc, hp, ?_⟩
              simp [generateLoop, ho, h429, herr, hc, hp]
    | timeoutExc =>
      by_cases hlast : attempt < max_retries - 1
      · simpa [generateLoop, ho, hlast] using ih (attempt + 1)
      · right; left; simp [generateLoop, ho, hlast]
    | requestExc m =>
      by_cases hlast : attempt < max_retries - 1
      · simpa [generateLoop, ho, hlast] using ih (attempt + 1)
      · right; left; simp [generateLoop, ho, hlast]
    | otherExc m =>
      by_cases hlast : attempt < max_retries - 1
      · simpa [generateLoop, ho, hlast] using ih (attempt + 1)
      · right
        right
        exact ⟨m, by simp [generateLoop, ho, hlast]⟩

/-- C1: for every API key, retry budget and sequence of remote-call
outcomes (any HTTP status, malformed body — a request or generic
exception outcome —, timeout, network exception, or other exception on
each attempt), `_generate` returns a string: the trimmed payload of some
attempt, or a well-formed failure sentinel.  No exception reaches the
caller — in the embedding, `_generate` is a total function into
`String × List Nat`. -/
theorem generate_never_raises (api_key : String) (outcomes : Nat → Outcome)
    (max_retries : Nat) :
    (∃ i, successText (outcomes i)
      (_generate api_key outcomes max_retries).1) ∨
    isSentinel (_generate api_key outcomes max_retries).1 := by
  rw [_generate]
  by_cases h : api_key = ""
  · rw [if_pos h]
    right
    left
    simp
  · rw [if_neg h]
    exact generateLoop_result_shape outcomes max_retries max_retries 0

/-- C6: an attempt whose outcome is an HTTP success carrying a non-empty
candidate list and a non-empty content-parts list makes the loop return
the trimmed text of the first candidate's first part at once, with no
further sleeps and no dependence on any later attempt's outcome. -/
theorem generate_success_immediate (outcomes : Nat → Outcome)
    (max_retries attempt fuel st : Nat) (body : Body) (cand : Candidate)
    (cs : List Candidate) (p : Part) (ps : List Part)
    (ho : outcomes attempt = .response st body)
    (h429 : st ≠ 429) (herr : ¬(400 ≤ st ∧ st < 600))
    (hc : body.candidates = cand :: cs) (hp : partsOf cand = p :: ps) :
    generateLoop outcomes max_retries attempt (fuel + 1) =
      (pyStrip (p.text.getD ""), []) := by
  simp [generateLoop, ho, h429, herr, hc, hp]

/-- Witness for C6: attempt 0 returns HTTP 200 with an empty candidate
list, attempt 1 a valid response; `_generate` backs off once (1 second)
and returns the valid trimmed text with no sentinel contamination. -/
theorem generate_success_immediate_witness :
    _generate "key" scenarioOutcomes 3 = ("Valid response text.", [1]) := by
  have h := generate_success_immediate scenarioOutcomes 3 1 1 200 validBody
    ⟨some ⟨[⟨some "  Valid response text.  "⟩]⟩⟩ []
    ⟨some "  Valid response text.  "⟩ [] rfl (by decide) (by decide) rfl rfl
  rw [show _generate "key" scenarioOutcomes 3 =
      ((generateLoop scenarioOutcomes 3 1 (1 + 1)).1,
        1 :: (generateLoop scenarioOutcomes 3 1 (1 + 1)).2) from rfl, h]
  decide

/-- C10: an attempt whose outcome is an HTTP success with a non-empty
candidate list and non-empty parts list, but whose first part's text
field is missing or strips to empty, makes the loop return the empty
string at once — not a sentinel, with no retry. -/
theorem generate_empty_text_result (outcomes : Nat → Outcome)
    (max_retries attempt fuel st : Nat) (body : Body) (cand : Candidate)
    (cs : List Candidate) (p : Part) (ps : List Part)
    (ho : outcomes attempt = .response st body)
    (h429 : st ≠ 429) (herr : ¬(400 ≤ st ∧ st < 600))
    (hc : body.candidates = cand :: cs) (hp : partsOf cand = p :: ps)
    (ht : p.text = none ∨ ∃ s, p.text = some s ∧ pyStrip s = "") :
    generateLoop outcomes max_retries attempt (fuel + 1) = ("", []) := by
  rcases ht with ht | ⟨s, ht, hs⟩
  · simp only [generateLoop, ho, h429, herr, hc, hp, ht]
    simp [show pyStrip "" = "" from rfl]
  · simp [generateLoop, ho, h429, herr, hc, hp, ht, hs]

/-- Witness for C10: every attempt returns HTTP 200 whose first part has
no text field; `_generate` returns the empty string with no sleeps. -/
theorem generate_empty_text_result_witness :
    _generate "key" noTextOutcomes 3 = ("", []) := by
  have h := generate_empty_text_result noTextOutcomes 3 0 2 200
    ⟨[⟨some ⟨[⟨none⟩]⟩⟩]⟩ ⟨some ⟨[⟨none⟩]⟩⟩ [] ⟨none⟩ [] rfl (by decide)
    (by decide) rfl rfl (Or.inl rfl)
  rw [show _generate "key" noTextOutcomes 3 =
      generateLoop noTextOutcomes 3 0 (2 + 1) from rfl, h]

/-- One step of the retry loop on an attempt whose outcome has failure
class `fc`: sleep `classBackoff fc attempt` and continue when retries
remain, otherwise return the class sentinel. -/
theorem generateLoop_fail_step (outcomes : Nat → Outcome)
    (max_retries attempt n : Nat) (fc : FailClass)
    (hca : inClass fc (outcomes attempt)) :
    generateLoop outcomes max_retries attempt (n + 1) =
      if attempt < max_retries - 1 then
        ((generateLoop outcomes max_retries (attempt + 1) n).1,
         classBackoff fc attempt ::
           (generateLoop outcomes max_retries (attempt + 1) n).2)
      else (classSentinel fc, []) := by
  cases fc with
  | rateLimited =>
    cases ho : outcomes attempt with
    | response st body =>
      rw [ho] at hca
      simp only [inClass] at hca
      subst hca
      by_cases hretry : attempt < max_retries - 1 <;>
        simp [generateLoop, ho, hretry, classBackoff, classSentinel]
    | timeoutExc => rw [ho] at hca; simp [inClass] at hca
    | requestExc m => rw [ho] at hca; simp [inClass] at hca
    | otherExc m => rw [ho] at hca; simp [inClass] at hca
  | noCandidates =>
    cases ho : outcomes attempt with
    | response st body =>
      rw [ho] at hca
      simp only [inClass] at hca
      obtain ⟨h1, h2, h3⟩ := hca
      by_cases hretry : attempt < max_retries - 1 <;>
        simp [generateLoop, ho, h1, h2, h3, hretry, classBackoff,
          classSentinel]
    | timeoutExc => rw [ho] at hca; simp [inClass] at hca
    | requestExc m => rw [ho] at hca; simp [inClass] at hca
    | otherExc m => rw [ho] at hca; simp [inClass] at hca
  | noParts =>
    cases ho : outcomes attempt with
    | response st body =>
      rw [ho] at hca
      simp only [inClass] at hca
      obtain ⟨h1, h2, cand, cs, h3, h4⟩ := hca
      by_cases hretry : attempt < max_retries - 1 <;>
        simp [generateLoop, ho, h1, h2, h3, h4, hretry, classBackoff,
          classSentinel]
    | timeoutExc => rw [ho] at hca; simp [inClass] at hca
    | requestExc m => rw [ho] at hca; simp [inClass] at hca
    | otherExc m => rw [ho] at hca; simp [inClass] at hca
  | timedOut =>
    cases ho : outcomes attempt with
    | response st body => rw [ho] at hca; simp [inClass] at hca
    | timeoutExc =>
      by_cases hretry : attempt < max_retries - 1 <;>
        simp [generateLoop, ho, hretry, classBackoff, classSentinel]
    | requestExc m => rw [ho] at hca; simp [inClass] at hca
    | otherExc m => rw [ho] at hca; simp [inClass] at hca
  | netError m =>
    cases ho : outcomes attempt with
    | response st body => rw [ho] at hca; simp [inClass] at hca
    | timeoutExc => rw [ho] at hca; simp [inClass] at hca
    | requestExc m2 =>
      rw [ho] at hca
      simp only [inClass] at hca
      subst hca
      by_cases hretry : attempt < max_retries - 1 <;>
        simp [generateLoop, ho, hretry, classBackoff, classSentinel]
    | otherExc m2 => rw [ho] at hca; simp [inClass] at hca
  | genericError m =>
    cases ho : outcomes attempt with
    | response st body => rw [ho] at hca; simp [inClass] at hca
    | timeoutExc => rw [ho] at hca; simp [inClass] at hca
    | requestExc m2 => rw [ho] at hca; simp [inClass] at hca
    | otherExc m2 =>
      rw [ho] at hca
      simp only [inClass] at hca
      subst hca
      by_cases hretry : attempt < max_retries - 1 <;>
        simp [generateLoop, ho, hretry, classBackoff, classSentinel]

/-- A run of the loop whose every remaining attempt fails, attempt `i`
with class `c i`, performs the class backoff of each non-final attempt
and ends in the final attempt's class sentinel. -/
theorem generateLoop_failure_ladder (outcomes : Nat → Outcome)
    (c : Nat → FailClass) (max_retries : Nat) :
    ∀ fuel attempt, attempt + fuel = max_retries → attempt < max_retries →
      (∀ i, attempt ≤ i → i < max_retries → inClass (c i) (outcomes i)) →
      generateLoop outcomes max_retries attempt fuel =
        (classSentinel (c (max_retries - 1)),
         (List.range' attempt (max_retries - 1 - attempt)).map
           (fun i => classBackoff (c i) i)) := by
  intro fuel
  induction fuel with
  | zero => intro attempt hsum hlt _; omega
  | succ n ih =>
    intro attempt hsum hlt hcls
    rw [generateLoop_fail_step outcomes max_retries attempt n (c attempt)
      (hcls attempt le_rfl hlt)]
    by_cases hretry : attempt < max_retries - 1
    · rw [if_pos hretry,
        ih (attempt + 1) (by omega) (by omega)
          (fun i h1 h2 => hcls i (by omega) h2)]
      have hrange : max_retries - 1 - attempt =
          (max_retries - 1 - (attempt + 1)) + 1 := by omega
      rw [hrange, List.range'_succ, List.map_cons]
    · rw [if_neg hretry]
      have ha : attempt = max_retries - 1 := by omega
      have hz : max_retries - 1 - attempt = 0 := by omega
      rw [hz, ha]
      rfl

/-- C2: with at least one attempt and a configured key, when attempt `i`
fails with class `c i` for every `i`, `_generate` consumes exactly
`max_retries` attempts, sleeping `classBackoff (c i) i` after each
non-final one (`2^i * 2` for HTTP 429 and network/request exceptions,
`2^i` for empty candidate lists, empty parts lists, timeouts and generic
exceptions), and returns the final class's sentinel (`2^i * 2` classes:
rate-limit / network sentinels; `2^i` classes: no-response, no-text,
timeout, generic-error sentinels); the network sentinel can never
contain the credential-bearing request URL. -/
theorem generate_failure_backoff (api_key : String)
    (outcomes : Nat → Outcome) (c : Nat → FailClass) (max_retries : Nat)
    (hkey : ¬ api_key = "") (hmr : 1 ≤ max_retries)
    (hcls : ∀ i, i < max_retries → inClass (c i) (outcomes i)) :
    _generate api_key outcomes max_retries =
      (classSentinel (c (max_retries - 1)),
       (List.range (max_retries - 1)).map (fun i => classBackoff (c i) i)) ∧
    ∀ model key, pyContains networkSentinel (requestUrl model key) = false := by
  constructor
  · rw [_generate, if_neg hkey, List.range_eq_range']
    exact generateLoop_failure_ladder outcomes c max_retries max_retries 0
      (by omega) (by omega) (fun i _ h2 => hcls i h2)
  · intro model key
    cases hb : pyContains networkSentinel (requestUrl model key) with
    | false => rfl
    | true =>
      exfalso
      have hlen := length_le_of_listSub hb
      rw [show networkSentinel.data.length = 52 from rfl] at hlen
      have h2 : (requestUrl model key).data =
          GEMINI_API_BASE.data ++ "/".data ++ model.data ++
            ":generateContent?key=".data ++ key.data := rfl
      rw [h2] at hlen
      simp only [List.length_append] at hlen
      rw [show GEMINI_API_BASE.data.length = 55 from rfl,
        show ("/" : String).data.length = 1 from rfl,
        show (":generateContent?key=" : String).data.length = 21 from rfl]
        at hlen
      omega

/-- Witness for C2: three attempts all rate-limited back off 2 then 4
seconds and end in the rate-limit sentinel; the network sentinel does
not contain the request URL of the default model. -/
theorem generate_failure_backoff_witness :
    _generate "key" outcomes429 3 = (rateLimitSentinel, [2, 4]) ∧
    pyContains networkSentinel
      (requestUrl "gemini-2.0-flash-exp" "key") = false := by
  have h := generate_failure_backoff "key" outcomes429
    (fun _ => .rateLimited) 3 (by decide) (by decide) (fun i _ => rfl)
  refine ⟨?_, h.2 "gemini-2.0-flash-exp" "key"⟩
  rw [h.1]
  decide

end NyayAI
